import Mathlib

/-!
# libSGM host-side orchestration (`src/stereo_sgm.cpp`)

A shallow embedding of `sgm::StereoSGM` and `sgm::CudaStereoSGMResources`.

Modelling conventions.

* A `void*` is a buffer handle (`Ptr`); `0` is `NULL`.  The source does no pointer
  arithmetic, so a handle names a whole buffer.
* `World.mem` maps a handle to the array last written to that buffer.  A kernel or a
  `cudaMemcpy` replaces the array held by its destination; the byte counts that the source
  passes are kept in the trace (`World.log`) and in the allocation table (`World.allocated`).
* The CUDA kernels (`SemiGlobalMatching<T, N>::execute`, `median_filter`, `check_consistency`,
  `cast_8bit_16bit_array`) live outside `stereo_sgm.cpp`; they are the fields of `Kernels`.
* `int` values are `Int`; a conversion to `size_t` is `size_t` (reduction modulo `2 ^ 64`).
  A product computed in `int` (`input_depth_bits_ / 8 * width_ * height_`, `width_ * height_`)
  is `int_mul`: the product reduced to the 32-bit two's-complement range, which is what the
  compiled code yields where the C++ standard leaves signed overflow undefined. A product
  that starts with `sizeof(...)` is computed in `size_t`.
* `CudaSafeCall` and the CUDA runtime calls it wraps are taken to succeed.
* An `EXECUTE_INOUT` is carried as its `int` value: bit 0 marks device-resident input, bit 1
  device-resident output.
-/

namespace sgm

/-- A `void*`: the handle of a host or device buffer. -/
abbrev Ptr := Nat

/-- The contents of a buffer. -/
abbrev Data := List Nat

/-- The null pointer. -/
def NULL : Ptr := 0

/-- Conversion of an integer to `size_t` (64-bit unsigned). -/
def size_t (x : Int) : Nat := (x % 2 ^ 64).toNat

/-- The value an `int` expression takes: reduction to the 32-bit two's-complement range. -/
def int_wrap (x : Int) : Int := (x + 2 ^ 31) % 2 ^ 32 - 2 ^ 31

/-- A product of two `int` operands, as `int`. -/
def int_mul (a b : Int) : Int := int_wrap (a * b)

/-- Source line 25: `(int)type & 0x1`. The argument is the `int` value of the `EXECUTE_INOUT`. -/
def is_cuda_input (type : Int) : Bool := Int.land type 0x1 != 0

/-- Source line 26: `(int)type & 0x2`. -/
def is_cuda_output (type : Int) : Bool := Int.land type 0x2 != 0

/-- The four instantiations `SemiGlobalMatchingImpl<input_type, DISP_SIZE>` behind a
`SemiGlobalMatchingBase*`. -/
inductive SemiGlobalMatchingImpl where
  | uint8_t_64
  | uint8_t_128
  | uint16_t_64
  | uint16_t_128
  deriving DecidableEq, Repr

/-- Value of `sizeof(input_type)` for an instantiation. -/
def SemiGlobalMatchingImpl.sizeof_input_type : SemiGlobalMatchingImpl → Nat
  | .uint8_t_64 => 1
  | .uint8_t_128 => 1
  | .uint16_t_64 => 2
  | .uint16_t_128 => 2

/-- Value of `DISP_SIZE` for an instantiation. -/
def SemiGlobalMatchingImpl.DISP_SIZE : SemiGlobalMatchingImpl → Nat
  | .uint8_t_64 => 64
  | .uint8_t_128 => 128
  | .uint16_t_64 => 64
  | .uint16_t_128 => 128

/-- The members of `StereoSGM::Parameters` that `execute` reads. `uniqueness` is a `float`,
carried as its bit pattern; it is only handed on to the matching engine. -/
structure Parameters where
  P1 : Nat
  P2 : Nat
  uniqueness : Nat
  deriving DecidableEq, Repr

/-- The direction argument of `cudaMemcpy`. -/
inductive cudaMemcpyKind where
  | cudaMemcpyHostToDevice
  | cudaMemcpyDeviceToHost
  deriving DecidableEq, Repr

/-- The externally visible operations of the constructor and of `execute`, in program order. -/
inductive Event where
  | new_SemiGlobalMatchingImpl (v : SemiGlobalMatchingImpl)
  | cudaMalloc (devPtr : Ptr) (size : Nat)
  | cudaMemset (devPtr : Ptr) (value : Nat) (count : Nat)
  | cudaMemcpy (dst src : Ptr) (count : Nat) (kind : cudaMemcpyKind)
  | sgm_engine_execute (v : SemiGlobalMatchingImpl) (dst_L dst_R src_L src_R : Ptr)
      (w h : Nat) (P1 P2 uniqueness : Nat)
  | median_filter (d_src d_dst : Ptr) (width height : Int)
  | check_consistency (d_left_disp d_right_disp d_src_left : Ptr)
      (width height depth_bits : Int)
  | cast_8bit_16bit_array (arr8bits arr16bits : Ptr) (num_elements : Int)
  | cerr (msg : String)
  deriving DecidableEq, Repr

/-- The kernels that `stereo_sgm.cpp` calls and does not define, as functions from the arrays
they read to the arrays they write. -/
structure Kernels where
  /-- The matching engine: left and right source images to left and right raw disparity. -/
  sgm_engine : SemiGlobalMatchingImpl → Data → Data → Nat → Nat → Nat → Nat → Nat → Data × Data
  /-- The median filter: source array, width, height. -/
  median_filter : Data → Int → Int → Data
  /-- The consistency check: left disparity, right disparity, left source image, width, height,
  input depth; the result is the new left disparity. -/
  check_consistency : Data → Data → Data → Int → Int → Int → Data
  /-- The widening of an 8-bit array to a 16-bit array: source array, element count. -/
  cast_8bit_16bit_array : Data → Int → Data

/-- The machine: buffer contents, the device allocator, and the trace of operations. -/
structure World where
  /-- The array held by each buffer. -/
  mem : Ptr → Data
  /-- The largest device address handed out so far. -/
  brk : Ptr
  /-- The live device allocations with their sizes in bytes, oldest first. -/
  allocated : List (Ptr × Nat)
  /-- The operations performed so far, oldest first. -/
  log : List Event

/-- Call `cudaMalloc(&p, size)`: a fresh non-null device buffer; its contents are not set. -/
def cudaMalloc (size : Nat) (w : World) : Ptr × World :=
  (w.brk + 1,
    { w with
      brk := w.brk + 1
      allocated := w.allocated ++ [(w.brk + 1, size)]
      log := w.log ++ [Event.cudaMalloc (w.brk + 1) size] })

/-- Call `cudaMemset(devPtr, value, count)`. -/
def cudaMemset (devPtr : Ptr) (value : Nat) (count : Nat) (w : World) : World :=
  { w with
    mem := Function.update w.mem devPtr (List.replicate count value)
    log := w.log ++ [Event.cudaMemset devPtr value count] }

/-- Call `cudaMemcpy(dst, src, count, kind)`. -/
def cudaMemcpy (dst src : Ptr) (count : Nat) (kind : cudaMemcpyKind) (w : World) : World :=
  { w with
    mem := Function.update w.mem dst (w.mem src)
    log := w.log ++ [Event.cudaMemcpy dst src count kind] }

/-- Source lines 40-44: `SemiGlobalMatchingImpl<input_type, DISP_SIZE>::execute`, which forwards to
the engine. The engine reads both sources and writes both raw disparity buffers. -/
def SemiGlobalMatchingImpl.execute (K : Kernels) (v : SemiGlobalMatchingImpl)
    (dst_L dst_R src_L src_R : Ptr) (w h : Nat) (P1 P2 uniqueness : Nat) (s : World) : World :=
  { s with
    mem := Function.update
      (Function.update s.mem dst_L
        (K.sgm_engine v (s.mem src_L) (s.mem src_R) w h P1 P2 uniqueness).1)
      dst_R (K.sgm_engine v (s.mem src_L) (s.mem src_R) w h P1 P2 uniqueness).2
    log := s.log ++ [Event.sgm_engine_execute v dst_L dst_R src_L src_R w h P1 P2 uniqueness] }

/-- Call `sgm::details::median_filter(d_src, d_dst, width, height)`. -/
def details.median_filter (K : Kernels) (d_src d_dst : Ptr) (width height : Int)
    (s : World) : World :=
  { s with
    mem := Function.update s.mem d_dst (K.median_filter (s.mem d_src) width height)
    log := s.log ++ [Event.median_filter d_src d_dst width height] }

/-- Call `sgm::details::check_consistency(d_left_disp, d_right_disp, d_src_left, width, height,
depth_bits)`: the left disparity buffer is rewritten in place. -/
def details.check_consistency (K : Kernels) (d_left_disp d_right_disp d_src_left : Ptr)
    (width height depth_bits : Int) (s : World) : World :=
  { s with
    mem := Function.update s.mem d_left_disp
      (K.check_consistency (s.mem d_left_disp) (s.mem d_right_disp) (s.mem d_src_left)
        width height depth_bits)
    log := s.log ++
      [Event.check_consistency d_left_disp d_right_disp d_src_left width height depth_bits] }

/-- Call `sgm::details::cast_8bit_16bit_array(arr8bits, arr16bits, num_elements)`. -/
def details.cast_8bit_16bit_array (K : Kernels) (arr8bits arr16bits : Ptr) (num_elements : Int)
    (s : World) : World :=
  { s with
    mem := Function.update s.mem arr16bits (K.cast_8bit_16bit_array (s.mem arr8bits) num_elements)
    log := s.log ++ [Event.cast_8bit_16bit_array arr8bits arr16bits num_elements] }

/-- Statement `std::cerr << msg << std::endl`. -/
def cerr (msg : String) (s : World) : World :=
  { s with log := s.log ++ [Event.cerr msg] }

/-- Source lines 49-57: the members of `CudaStereoSGMResources`. -/
structure CudaStereoSGMResources where
  d_src_left : Ptr
  d_src_right : Ptr
  d_left_disp : Ptr
  d_right_disp : Ptr
  d_tmp_left_disp : Ptr
  d_tmp_right_disp : Ptr
  sgm_engine : SemiGlobalMatchingImpl
  deriving DecidableEq, Repr

/-- Source lines 61-70: the engine selection. `none` is the final `else`, which throws. -/
def CudaStereoSGMResources.new_sgm_engine (disparity_size_ input_depth_bits_ : Int) :
    Option SemiGlobalMatchingImpl :=
  if input_depth_bits_ = 8 ∧ disparity_size_ = 64 then
    some SemiGlobalMatchingImpl.uint8_t_64
  else if input_depth_bits_ = 8 ∧ disparity_size_ = 128 then
    some SemiGlobalMatchingImpl.uint8_t_128
  else if input_depth_bits_ = 16 ∧ disparity_size_ = 64 then
    some SemiGlobalMatchingImpl.uint16_t_64
  else if input_depth_bits_ = 16 ∧ disparity_size_ = 128 then
    some SemiGlobalMatchingImpl.uint16_t_128
  else
    none

/-- Source lines 72-79: the input staging buffers. -/
def CudaStereoSGMResources.alloc_src (width_ height_ input_depth_bits_ inout_type_ : Int)
    (w : World) : Ptr × Ptr × World :=
  if is_cuda_input inout_type_ then
    (NULL, NULL, w)
  else
    let l := cudaMalloc (size_t (int_mul (int_mul (input_depth_bits_.tdiv 8) width_) height_)) w
    let r := cudaMalloc (size_t (int_mul (int_mul (input_depth_bits_.tdiv 8) width_) height_)) l.2
    (l.1, r.1, r.2)

/-- Source lines 59-91: the constructor of `CudaStereoSGMResources`. The result is the thrown
`std::logic_error` message or the constructed members, together with the machine afterwards. -/
def CudaStereoSGMResources.ctor
    (width_ height_ disparity_size_ input_depth_bits_ output_depth_bits_ inout_type_ : Int)
    (w : World) : Except String CudaStereoSGMResources × World :=
  match CudaStereoSGMResources.new_sgm_engine disparity_size_ input_depth_bits_ with
  | none =>
    (Except.error "depth bits must be 8 or 16, and disparity size must be 64 or 128", w)
  | some sgm_engine =>
    let w := { w with log := w.log ++ [Event.new_SemiGlobalMatchingImpl sgm_engine] }
    let src := CudaStereoSGMResources.alloc_src width_ height_ input_depth_bits_ inout_type_ w
    let left := cudaMalloc (size_t (2 * width_ * height_)) src.2.2
    let right := cudaMalloc (size_t (2 * width_ * height_)) left.2
    let tmp_left := cudaMalloc (size_t (2 * width_ * height_)) right.2
    let tmp_right := cudaMalloc (size_t (2 * width_ * height_)) tmp_left.2
    let w := cudaMemset left.1 0 (size_t (2 * width_ * height_)) tmp_right.2
    let w := cudaMemset right.1 0 (size_t (2 * width_ * height_)) w
    let w := cudaMemset tmp_left.1 0 (size_t (2 * width_ * height_)) w
    let w := cudaMemset tmp_right.1 0 (size_t (2 * width_ * height_)) w
    (Except.ok
      { d_src_left := src.1
        d_src_right := src.2.1
        d_left_disp := left.1
        d_right_disp := right.1
        d_tmp_left_disp := tmp_left.1
        d_tmp_right_disp := tmp_right.1
        sgm_engine := sgm_engine },
      w)

/-- The data members of `StereoSGM`. `cu_res_` is `none` when the pointer is `NULL`. -/
structure StereoSGM where
  cu_res_ : Option CudaStereoSGMResources
  width_ : Int
  height_ : Int
  disparity_size_ : Int
  input_depth_bits_ : Int
  output_depth_bits_ : Int
  inout_type_ : Int
  param_ : Parameters
  deriving DecidableEq, Repr

/-- What a run of the `StereoSGM` constructor leaves behind. -/
structure Construction where
  /-- The members of the object when the constructor returned or threw. -/
  self : StereoSGM
  /-- The message of the `std::logic_error` that left the constructor, if one did. -/
  thrown : Option String
  /-- The machine afterwards. -/
  world : World

/-- Source lines 107-129: the constructor of `StereoSGM`. -/
def StereoSGM.ctor (width height disparity_size input_depth_bits output_depth_bits : Int)
    (inout_type : Int) (param : Parameters) (w : World) : Construction :=
  let self : StereoSGM :=
    { cu_res_ := none
      width_ := width
      height_ := height
      disparity_size_ := disparity_size
      input_depth_bits_ := input_depth_bits
      output_depth_bits_ := output_depth_bits
      inout_type_ := inout_type
      param_ := param }
  if self.input_depth_bits_ ≠ 8 ∧ self.input_depth_bits_ ≠ 16 ∧
      self.output_depth_bits_ ≠ 8 ∧ self.output_depth_bits_ ≠ 16 then
    { self := { self with
        width_ := 0, height_ := 0, input_depth_bits_ := 0, output_depth_bits_ := 0,
        disparity_size_ := 0 }
      thrown := some "depth bits must be 8 or 16"
      world := w }
  else if self.disparity_size_ ≠ 64 ∧ self.disparity_size_ ≠ 128 then
    { self := { self with
        width_ := 0, height_ := 0, input_depth_bits_ := 0, output_depth_bits_ := 0,
        disparity_size_ := 0 }
      thrown := some "disparity size must be 64 or 128"
      world := w }
  else
    match CudaStereoSGMResources.ctor self.width_ self.height_ self.disparity_size_
        self.input_depth_bits_ self.output_depth_bits_ self.inout_type_ w with
    | (Except.error what, w) => { self := self, thrown := some what, world := w }
    | (Except.ok cu_res, w) =>
      { self := { self with cu_res_ := some cu_res }, thrown := none, world := w }

/-- Source lines 140-149: input staging. The result is `d_input_left`, `d_input_right` and the
machine afterwards. -/
def StereoSGM.stage_input (self : StereoSGM) (cu_res_ : CudaStereoSGMResources)
    (left_pixels right_pixels : Ptr) (w : World) : Ptr × Ptr × World :=
  if is_cuda_input self.inout_type_ then
    (left_pixels, right_pixels, w)
  else
    let w := cudaMemcpy cu_res_.d_src_left left_pixels
      (size_t (int_mul (int_mul (self.input_depth_bits_.tdiv 8) self.width_) self.height_))
      cudaMemcpyKind.cudaMemcpyHostToDevice w
    let w := cudaMemcpy cu_res_.d_src_right right_pixels
      (size_t (int_mul (int_mul (self.input_depth_bits_.tdiv 8) self.width_) self.height_))
      cudaMemcpyKind.cudaMemcpyHostToDevice w
    (cu_res_.d_src_left, cu_res_.d_src_right, w)

/-- Source lines 153-157: the local `d_left_disp`, the target of the left median filter. -/
def StereoSGM.left_disp_target (self : StereoSGM) (cu_res_ : CudaStereoSGMResources)
    (dst : Ptr) : Ptr :=
  if is_cuda_output self.inout_type_ ∧ self.output_depth_bits_ = 8 then dst
  else cu_res_.d_left_disp

/-- Source lines 166-181: the last step of `execute`. `d_left_disp` is the local variable. -/
def StereoSGM.finalize (K : Kernels) (self : StereoSGM) (d_left_disp d_tmp_left_disp dst : Ptr)
    (w : World) : World :=
  if ¬ is_cuda_output self.inout_type_ ∧ self.output_depth_bits_ = 16 then
    let w := details.cast_8bit_16bit_array K d_left_disp d_tmp_left_disp
      (int_mul self.width_ self.height_) w
    cudaMemcpy dst d_tmp_left_disp (size_t (2 * self.width_ * self.height_))
      cudaMemcpyKind.cudaMemcpyDeviceToHost w
  else if is_cuda_output self.inout_type_ ∧ self.output_depth_bits_ = 16 then
    details.cast_8bit_16bit_array K d_left_disp dst (int_mul self.width_ self.height_) w
  else if ¬ is_cuda_output self.inout_type_ ∧ self.output_depth_bits_ = 8 then
    cudaMemcpy dst d_left_disp (size_t (1 * self.width_ * self.height_))
      cudaMemcpyKind.cudaMemcpyDeviceToHost w
  else if is_cuda_output self.inout_type_ ∧ self.output_depth_bits_ = 8 then
    w
  else
    cerr "not impl" w

/-- Source lines 136-182: `StereoSGM::execute`. The object is not assigned to; the result is the
object and the machine afterwards, or `none` when `cu_res_` is `NULL`. -/
def StereoSGM.execute (K : Kernels) (self : StereoSGM) (left_pixels right_pixels dst : Ptr)
    (w : World) : Option (StereoSGM × World) :=
  match self.cu_res_ with
  | none => none
  | some cu_res_ =>
    let staged := self.stage_input cu_res_ left_pixels right_pixels w
    let d_input_left := staged.1
    let d_input_right := staged.2.1
    let d_tmp_left_disp := cu_res_.d_tmp_left_disp
    let d_tmp_right_disp := cu_res_.d_tmp_right_disp
    let d_left_disp := self.left_disp_target cu_res_ dst
    let d_right_disp := cu_res_.d_right_disp
    let w := cu_res_.sgm_engine.execute K d_tmp_left_disp d_tmp_right_disp
      d_input_left d_input_right (size_t self.width_) (size_t self.height_)
      self.param_.P1 self.param_.P2 self.param_.uniqueness staged.2.2
    let w := details.median_filter K d_tmp_left_disp d_left_disp self.width_ self.height_ w
    let w := details.median_filter K d_tmp_right_disp d_right_disp self.width_ self.height_ w
    let w := details.check_consistency K d_left_disp d_right_disp d_input_left
      self.width_ self.height_ self.input_depth_bits_ w
    some (self, self.finalize K d_left_disp d_tmp_left_disp dst w)

/-! ## Traces, separation and sample data -/

/-- Modelled from the spec: the number of bytes each operation touches in each of its buffers.
The kernels (`SemiGlobalMatching<T, N>::execute`, `median_filter`, `check_consistency`,
`cast_8bit_16bit_array`) are defined outside `stereo_sgm.cpp`; their extents follow the interface
contracts of the specification and the pointer types at the call sites: `uint8_t` arrays of
`width * height` elements for the engine outputs, the median filter and the disparity maps of the
consistency check, `input_type` arrays for the source images, a `uint16_t` array of
`num_elements` for the target of the cast. `cudaMemset` and `cudaMemcpy` touch `count` bytes. -/
def Event.accesses : Event → List (Ptr × Nat)
  | .new_SemiGlobalMatchingImpl _ => []
  | .cudaMalloc _ _ => []
  | .cudaMemset devPtr _ count => [(devPtr, count)]
  | .cudaMemcpy dst src count _ => [(dst, count), (src, count)]
  | .sgm_engine_execute v dst_L dst_R src_L src_R w h _ _ _ =>
    [(dst_L, 1 * w * h), (dst_R, 1 * w * h),
      (src_L, v.sizeof_input_type * w * h), (src_R, v.sizeof_input_type * w * h)]
  | .median_filter d_src d_dst width height =>
    [(d_src, (1 * width * height).toNat), (d_dst, (1 * width * height).toNat)]
  | .check_consistency d_left_disp d_right_disp d_src_left width height depth_bits =>
    [(d_left_disp, (1 * width * height).toNat), (d_right_disp, (1 * width * height).toNat),
      (d_src_left, (depth_bits.tdiv 8 * width * height).toNat)]
  | .cast_8bit_16bit_array arr8bits arr16bits num_elements =>
    [(arr8bits, (1 * num_elements).toNat), (arr16bits, (2 * num_elements).toNat)]
  | .cerr _ => []

/-- The device buffers that the constructor allocates for an instance: the two input staging
buffers when the input is host-resident, and the four disparity buffers. -/
def StereoSGM.scratch_set (self : StereoSGM) (cu_res_ : CudaStereoSGMResources) : List Ptr :=
  (if is_cuda_input self.inout_type_ then [] else [cu_res_.d_src_left, cu_res_.d_src_right]) ++
    [cu_res_.d_left_disp, cu_res_.d_right_disp, cu_res_.d_tmp_left_disp,
      cu_res_.d_tmp_right_disp]

/-- A machine in which the caller holds the buffers `100` (left image), `101` (right image) and
`102` (destination); addresses up to `102` are taken. -/
def World.sample : World :=
  { mem := fun p =>
      if p = 100 then [3, 1, 4, 1, 5, 9, 2, 6]
      else if p = 101 then [2, 7, 1, 8, 2, 8, 1, 8]
      else []
    brk := 102
    allocated := []
    log := [] }

/-- Concrete kernels for evaluating the model: the engine returns its two sources, the median
filter and the consistency check return their first array, the cast widens each element to two
little-endian bytes. -/
def Kernels.sample : Kernels :=
  { sgm_engine := fun _ l r _ _ _ _ _ => (l, r)
    median_filter := fun d _ _ => d
    check_consistency := fun l _ _ _ _ _ => l
    cast_8bit_16bit_array := fun d _ => d.flatMap fun b => [b, 0] }

/-- The parameters of the end-to-end scenarios: `P1 = 10`, `P2 = 120`, `uniqueness = 0.95f`. -/
def Parameters.sample : Parameters := { P1 := 10, P2 := 120, uniqueness := 0x3f733333 }

/-- The machine after `execute` on an instance that holds its resources. -/
def StereoSGM.execute_world (K : Kernels) (self : StereoSGM) (cu_res_ : CudaStereoSGMResources)
    (left_pixels right_pixels dst : Ptr) (w : World) : World :=
  self.finalize K (self.left_disp_target cu_res_ dst) cu_res_.d_tmp_left_disp dst
    (details.check_consistency K (self.left_disp_target cu_res_ dst) cu_res_.d_right_disp
      (self.stage_input cu_res_ left_pixels right_pixels w).1 self.width_ self.height_
      self.input_depth_bits_
      (details.median_filter K cu_res_.d_tmp_right_disp cu_res_.d_right_disp self.width_
        self.height_
        (details.median_filter K cu_res_.d_tmp_left_disp (self.left_disp_target cu_res_ dst)
          self.width_ self.height_
          (SemiGlobalMatchingImpl.execute K cu_res_.sgm_engine cu_res_.d_tmp_left_disp
            cu_res_.d_tmp_right_disp (self.stage_input cu_res_ left_pixels right_pixels w).1
            (self.stage_input cu_res_ left_pixels right_pixels w).2.1 (size_t self.width_)
            (size_t self.height_) self.param_.P1 self.param_.P2 self.param_.uniqueness
            (self.stage_input cu_res_ left_pixels right_pixels w).2.2))))

/-- The trace of source lines 159-164 when the inputs are `d_input_left`, `d_input_right` and the
left median filter writes to `d_left_disp`. -/
def StereoSGM.pipeline_events (self : StereoSGM) (cu_res_ : CudaStereoSGMResources)
    (d_input_left d_input_right d_left_disp : Ptr) : List Event :=
  [Event.sgm_engine_execute cu_res_.sgm_engine cu_res_.d_tmp_left_disp cu_res_.d_tmp_right_disp
      d_input_left d_input_right (size_t self.width_) (size_t self.height_)
      self.param_.P1 self.param_.P2 self.param_.uniqueness,
    Event.median_filter cu_res_.d_tmp_left_disp d_left_disp self.width_ self.height_,
    Event.median_filter cu_res_.d_tmp_right_disp cu_res_.d_right_disp self.width_ self.height_,
    Event.check_consistency d_left_disp cu_res_.d_right_disp d_input_left
      self.width_ self.height_ self.input_depth_bits_]

/-- The machine after source lines 159-164. -/
def StereoSGM.pipeline_world (K : Kernels) (self : StereoSGM) (cu_res_ : CudaStereoSGMResources)
    (d_input_left d_input_right d_left_disp : Ptr) (s : World) : World :=
  details.check_consistency K d_left_disp cu_res_.d_right_disp d_input_left
    self.width_ self.height_ self.input_depth_bits_
    (details.median_filter K cu_res_.d_tmp_right_disp cu_res_.d_right_disp self.width_
      self.height_
      (details.median_filter K cu_res_.d_tmp_left_disp d_left_disp self.width_ self.height_
        (SemiGlobalMatchingImpl.execute K cu_res_.sgm_engine cu_res_.d_tmp_left_disp
          cu_res_.d_tmp_right_disp d_input_left d_input_right (size_t self.width_)
          (size_t self.height_) self.param_.P1 self.param_.P2 self.param_.uniqueness s)))

/-- The variant table of the specification: the engine keyed by the pair (input depth,
disparity range); `none` for a pair that is not constructible. -/
def engine_variant (input_depth_bits disparity_size : Int) : Option SemiGlobalMatchingImpl :=
  match input_depth_bits, disparity_size with
  | 8, 64 => some SemiGlobalMatchingImpl.uint8_t_64
  | 8, 128 => some SemiGlobalMatchingImpl.uint8_t_128
  | 16, 64 => some SemiGlobalMatchingImpl.uint16_t_64
  | 16, 128 => some SemiGlobalMatchingImpl.uint16_t_128
  | _, _ => none

/-- The trace of source lines 140-149: the two staging copies when the input is host-resident. -/
def StereoSGM.stage_events (self : StereoSGM) (cu_res_ : CudaStereoSGMResources)
    (left_pixels right_pixels : Ptr) : List Event :=
  if is_cuda_input self.inout_type_ then []
  else
    [Event.cudaMemcpy cu_res_.d_src_left left_pixels
        (size_t (int_mul (int_mul (self.input_depth_bits_.tdiv 8) self.width_) self.height_))
        cudaMemcpyKind.cudaMemcpyHostToDevice,
      Event.cudaMemcpy cu_res_.d_src_right right_pixels
        (size_t (int_mul (int_mul (self.input_depth_bits_.tdiv 8) self.width_) self.height_))
        cudaMemcpyKind.cudaMemcpyHostToDevice]

/-- The trace of source lines 166-181, by branch. -/
def StereoSGM.finalize_events (self : StereoSGM) (d_left_disp d_tmp_left_disp dst : Ptr) :
    List Event :=
  if ¬ is_cuda_output self.inout_type_ ∧ self.output_depth_bits_ = 16 then
    [Event.cast_8bit_16bit_array d_left_disp d_tmp_left_disp (int_mul self.width_ self.height_),
      Event.cudaMemcpy dst d_tmp_left_disp (size_t (2 * self.width_ * self.height_))
        cudaMemcpyKind.cudaMemcpyDeviceToHost]
  else if is_cuda_output self.inout_type_ ∧ self.output_depth_bits_ = 16 then
    [Event.cast_8bit_16bit_array d_left_disp dst (int_mul self.width_ self.height_)]
  else if ¬ is_cuda_output self.inout_type_ ∧ self.output_depth_bits_ = 8 then
    [Event.cudaMemcpy dst d_left_disp (size_t (1 * self.width_ * self.height_))
      cudaMemcpyKind.cudaMemcpyDeviceToHost]
  else if is_cuda_output self.inout_type_ ∧ self.output_depth_bits_ = 8 then
    []
  else
    [Event.cerr "not impl"]

/-- The trace of one call of `execute`. -/
def StereoSGM.execute_events (self : StereoSGM) (cu_res_ : CudaStereoSGMResources)
    (left_pixels right_pixels dst : Ptr) : List Event :=
  self.stage_events cu_res_ left_pixels right_pixels ++
    self.pipeline_events cu_res_
      (if is_cuda_input self.inout_type_ then left_pixels else cu_res_.d_src_left)
      (if is_cuda_input self.inout_type_ then right_pixels else cu_res_.d_src_right)
      (self.left_disp_target cu_res_ dst) ++
    self.finalize_events (self.left_disp_target cu_res_ dst) cu_res_.d_tmp_left_disp dst

/-- An access `(p, n)` of `n` bytes at buffer `p` stays inside the allocation table `table`:
every entry of the table for `p` has at least `n` bytes. -/
def within (table : List (Ptr × Nat)) (a : Ptr × Nat) : Prop :=
  ∀ b ∈ table, a.1 = b.1 → a.2 ≤ b.2

/-- The construction of a 4 by 2 instance with disparity range 64 and input depth 8 on
`World.sample`, for a given output depth and locality flag. -/
def StereoSGM.sample (output_depth_bits inout_type : Int) : Construction :=
  StereoSGM.ctor 4 2 64 8 output_depth_bits inout_type Parameters.sample World.sample

/-- The resources that `StereoSGM.sample` allocates when the input is host-resident. -/
def CudaStereoSGMResources.sample_host : CudaStereoSGMResources :=
  { d_src_left := 103
    d_src_right := 104
    d_left_disp := 105
    d_right_disp := 106
    d_tmp_left_disp := 107
    d_tmp_right_disp := 108
    sgm_engine := SemiGlobalMatchingImpl.uint8_t_64 }

/-- The resources that `StereoSGM.sample` allocates when the input is device-resident. -/
def CudaStereoSGMResources.sample_device : CudaStereoSGMResources :=
  { d_src_left := NULL
    d_src_right := NULL
    d_left_disp := 103
    d_right_disp := 104
    d_tmp_left_disp := 105
    d_tmp_right_disp := 106
    sgm_engine := SemiGlobalMatchingImpl.uint8_t_64 }

/-! ## Lemmas -/

theorem new_sgm_engine_eq_none_iff (disparity_size_ input_depth_bits_ : Int) :
    CudaStereoSGMResources.new_sgm_engine disparity_size_ input_depth_bits_ = none ↔
      ¬ ((input_depth_bits_ = 8 ∨ input_depth_bits_ = 16) ∧
        (disparity_size_ = 64 ∨ disparity_size_ = 128)) := by
  unfold CudaStereoSGMResources.new_sgm_engine
  split_ifs <;> simp_all
  omega

theorem resources_ctor_of_none
    (width_ height_ disparity_size_ input_depth_bits_ output_depth_bits_ inout_type_ : Int)
    (w : World)
    (h : CudaStereoSGMResources.new_sgm_engine disparity_size_ input_depth_bits_ = none) :
    CudaStereoSGMResources.ctor width_ height_ disparity_size_ input_depth_bits_
        output_depth_bits_ inout_type_ w =
      (Except.error "depth bits must be 8 or 16, and disparity size must be 64 or 128", w) := by
  simp [CudaStereoSGMResources.ctor, h]

theorem resources_ctor_of_some
    (width_ height_ disparity_size_ input_depth_bits_ output_depth_bits_ inout_type_ : Int)
    (w : World) (v : SemiGlobalMatchingImpl)
    (h : CudaStereoSGMResources.new_sgm_engine disparity_size_ input_depth_bits_ = some v) :
    ∃ cu w', CudaStereoSGMResources.ctor width_ height_ disparity_size_ input_depth_bits_
        output_depth_bits_ inout_type_ w = (Except.ok cu, w') ∧ cu.sgm_engine = v := by
  simp [CudaStereoSGMResources.ctor, h]

theorem ctor_thrown_iff (width height disparity_size input_depth_bits output_depth_bits inout_type : Int)
    (param : Parameters) (w : World) :
    (StereoSGM.ctor width height disparity_size input_depth_bits output_depth_bits inout_type param w).thrown = none ↔ 
     ((input_depth_bits = 8 ∨ input_depth_bits = 16) ∧
        (disparity_size = 64 ∨ disparity_size = 128)) := by
  cases hsel : CudaStereoSGMResources.new_sgm_engine disparity_size input_depth_bits with
  | none =>
    have hn := (new_sgm_engine_eq_none_iff _ _).1 hsel
    simp only [StereoSGM.ctor, resources_ctor_of_none _ _ _ _ _ _ _ hsel]
    split_ifs <;> simp [hn]
  | some v =>
    have hn : ¬ CudaStereoSGMResources.new_sgm_engine disparity_size input_depth_bits = none := by simp [hsel]
    rw [new_sgm_engine_eq_none_iff, not_not] at hn
    obtain ⟨cu, w', hc, -⟩ := resources_ctor_of_some width height disparity_size input_depth_bits output_depth_bits inout_type w v hsel
    simp only [StereoSGM.ctor, hc]
    split_ifs with h1 h2
    · omega
    · omega
    · simp [hn]

theorem execute_eq (K : Kernels) (self : StereoSGM) (cu : CudaStereoSGMResources)
    (left_pixels right_pixels dst : Ptr) (w : World) (hcu : self.cu_res_ = some cu) :
    self.execute K left_pixels right_pixels dst w =
      some (self, self.execute_world K cu left_pixels right_pixels dst w) := by
  simp only [StereoSGM.execute, hcu, StereoSGM.execute_world]

theorem pipeline_world_log (K : Kernels) (self : StereoSGM) (cu : CudaStereoSGMResources)
    (iL iR T : Ptr) (s : World) :
    (self.pipeline_world K cu iL iR T s).log = s.log ++ self.pipeline_events cu iL iR T := by
  simp [StereoSGM.pipeline_world, StereoSGM.pipeline_events, details.check_consistency,
    details.median_filter, SemiGlobalMatchingImpl.execute]

theorem pipeline_world_mem_other (K : Kernels) (self : StereoSGM) (cu : CudaStereoSGMResources)
    (iL iR T p : Ptr) (s : World)
    (h1 : p ≠ cu.d_tmp_left_disp) (h2 : p ≠ cu.d_tmp_right_disp)
    (h3 : p ≠ cu.d_right_disp) (h4 : p ≠ T) :
    (self.pipeline_world K cu iL iR T s).mem p = s.mem p := by
  simp [StereoSGM.pipeline_world, details.check_consistency,
    details.median_filter, SemiGlobalMatchingImpl.execute, Function.update_apply,
    h1, h2, h3, h4]

theorem execute_world_eq (K : Kernels) (self : StereoSGM) (cu : CudaStereoSGMResources)
    (left_pixels right_pixels dst : Ptr) (w : World) :
    self.execute_world K cu left_pixels right_pixels dst w =
      self.finalize K (self.left_disp_target cu dst) cu.d_tmp_left_disp dst
        (self.pipeline_world K cu (self.stage_input cu left_pixels right_pixels w).1
          (self.stage_input cu left_pixels right_pixels w).2.1 (self.left_disp_target cu dst)
          (self.stage_input cu left_pixels right_pixels w).2.2) := rfl

theorem new_sgm_engine_eq_engine_variant (disparity_size_ input_depth_bits_ : Int) :
    CudaStereoSGMResources.new_sgm_engine disparity_size_ input_depth_bits_ =
      engine_variant input_depth_bits_ disparity_size_ := by
  unfold CudaStereoSGMResources.new_sgm_engine engine_variant
  split_ifs with h1 h2 h3 h4
  · simp [h1.1, h1.2]
  · simp [h2.1, h2.2]
  · simp [h3.1, h3.2]
  · simp [h4.1, h4.2]
  · split <;> simp_all

theorem stage_input_fst (self : StereoSGM) (cu : CudaStereoSGMResources)
    (left_pixels right_pixels : Ptr) (w : World) :
    (self.stage_input cu left_pixels right_pixels w).1 =
      if is_cuda_input self.inout_type_ then left_pixels else cu.d_src_left := by
  unfold StereoSGM.stage_input
  split_ifs <;> rfl

theorem stage_input_snd (self : StereoSGM) (cu : CudaStereoSGMResources)
    (left_pixels right_pixels : Ptr) (w : World) :
    (self.stage_input cu left_pixels right_pixels w).2.1 =
      if is_cuda_input self.inout_type_ then right_pixels else cu.d_src_right := by
  unfold StereoSGM.stage_input
  split_ifs <;> rfl

theorem stage_input_log (self : StereoSGM) (cu : CudaStereoSGMResources)
    (left_pixels right_pixels : Ptr) (w : World) :
    (self.stage_input cu left_pixels right_pixels w).2.2.log =
      w.log ++ self.stage_events cu left_pixels right_pixels := by
  unfold StereoSGM.stage_input StereoSGM.stage_events
  split_ifs <;> simp [cudaMemcpy]

theorem finalize_log (K : Kernels) (self : StereoSGM) (d_left_disp d_tmp_left_disp dst : Ptr)
    (s : World) :
    (self.finalize K d_left_disp d_tmp_left_disp dst s).log =
      s.log ++ self.finalize_events d_left_disp d_tmp_left_disp dst := by
  unfold StereoSGM.finalize StereoSGM.finalize_events
  split_ifs <;> simp [cudaMemcpy, details.cast_8bit_16bit_array, cerr]

theorem execute_world_log (K : Kernels) (self : StereoSGM) (cu : CudaStereoSGMResources)
    (left_pixels right_pixels dst : Ptr) (w : World) :
    (self.execute_world K cu left_pixels right_pixels dst w).log =
      w.log ++ self.execute_events cu left_pixels right_pixels dst := by
  rw [execute_world_eq, finalize_log, pipeline_world_log, stage_input_log, stage_input_fst,
    stage_input_snd]
  simp [StereoSGM.execute_events]

theorem execute_world_log_drop (K : Kernels) (self : StereoSGM) (cu : CudaStereoSGMResources)
    (left_pixels right_pixels dst : Ptr) (w : World) :
    (self.execute_world K cu left_pixels right_pixels dst w).log.drop w.log.length =
      self.execute_events cu left_pixels right_pixels dst := by
  rw [execute_world_log, List.drop_left]

theorem size_t_natCast (n : Nat) (h : n < 2 ^ 64) : size_t (n : Int) = n := by
  unfold size_t
  rw [Int.emod_eq_of_lt (by omega) (by omega)]
  simp

theorem int_wrap_of_range (x : Int) (h0 : -2 ^ 31 ≤ x) (h1 : x < 2 ^ 31) : int_wrap x = x := by
  unfold int_wrap
  omega

theorem int_mul_natCast (a b : Nat) (h : a * b < 2 ^ 31) :
    int_mul (a : Int) (b : Int) = ((a * b : Nat) : Int) := by
  have h' : ((a * b : Nat) : Int) < 2 ^ 31 := by exact_mod_cast h
  have h0 : (0 : Int) ≤ ((a * b : Nat) : Int) := Int.natCast_nonneg _
  unfold int_mul
  rw [← Nat.cast_mul, int_wrap_of_range _ (by omega) h']

/-- The `int` products at sizes that overflow: a 50000 by 50000 image at input depth 8 gives a
staging size of `2 ^ 64 - 1794967296` bytes, and `65536 * 65536` is `0`. -/
theorem int_mul_overflow_values :
    size_t (int_mul (int_mul (Int.tdiv 8 8) 50000) 50000) = 2 ^ 64 - 1794967296 ∧
    int_mul 65536 65536 = 0 := by
  decide

theorem staging_size (d : Int) (s W H : Nat) (hH0 : 0 < H)
    (hv : (d = 8 ∧ s = 1) ∨ (d = 16 ∧ s = 2)) (hS : s * (W * H) < 2 ^ 31) :
    size_t (int_mul (int_mul (d.tdiv 8) (W : Int)) (H : Int)) = s * (W * H) ∧
      (d.tdiv 8 * (W : Int) * (H : Int)).toNat = s * (W * H) := by
  have hWle : W ≤ W * H := Nat.le_mul_of_pos_right W hH0
  have hd : d.tdiv 8 = (s : Int) := by
    rcases hv with ⟨h, hs⟩ | ⟨h, hs⟩ <;> subst h <;> subst hs <;> decide
  have hs2 : s ≤ 2 := by rcases hv with ⟨-, hs⟩ | ⟨-, hs⟩ <;> omega
  have hsW : s * W ≤ s * (W * H) := Nat.mul_le_mul_left s hWle
  have q1 : int_mul (s : Int) (W : Int) = ((s * W : Nat) : Int) :=
    int_mul_natCast s W (by omega)
  have q2 : int_mul ((s * W : Nat) : Int) (H : Int) = ((s * W * H : Nat) : Int) :=
    int_mul_natCast (s * W) H (by rw [Nat.mul_assoc]; exact hS)
  have q3 : s * W * H < 2 ^ 64 := by rw [Nat.mul_assoc]; omega
  refine ⟨?_, ?_⟩
  · rw [hd, q1, q2, size_t_natCast _ q3, Nat.mul_assoc]
  · rw [hd, ← Nat.cast_mul, ← Nat.cast_mul, Int.toNat_natCast, Nat.mul_assoc]

theorem sizeof_input_type_of_new_sgm_engine (disparity_size_ input_depth_bits_ : Int)
    (v : SemiGlobalMatchingImpl)
    (h : CudaStereoSGMResources.new_sgm_engine disparity_size_ input_depth_bits_ = some v) :
    (input_depth_bits_ = 8 ∧ v.sizeof_input_type = 1) ∨
      (input_depth_bits_ = 16 ∧ v.sizeof_input_type = 2) := by
  unfold CudaStereoSGMResources.new_sgm_engine at h
  split_ifs at h <;> simp at h <;> subst h <;>
    simp_all [SemiGlobalMatchingImpl.sizeof_input_type]

theorem ctor_of_cu_res
    (width height disparity_size input_depth_bits output_depth_bits inout_type : Int)
    (param : Parameters) (w0 : World) (cu : CudaStereoSGMResources)
    (hc : (StereoSGM.ctor width height disparity_size input_depth_bits output_depth_bits
      inout_type param w0).self.cu_res_ = some cu) :
    (StereoSGM.ctor width height disparity_size input_depth_bits output_depth_bits
      inout_type param w0).self =
      { cu_res_ := some cu, width_ := width, height_ := height,
        disparity_size_ := disparity_size, input_depth_bits_ := input_depth_bits,
        output_depth_bits_ := output_depth_bits, inout_type_ := inout_type, param_ := param } ∧
    ((input_depth_bits = 8 ∧ cu.sgm_engine.sizeof_input_type = 1) ∨
      (input_depth_bits = 16 ∧ cu.sgm_engine.sizeof_input_type = 2)) ∧
    (StereoSGM.ctor width height disparity_size input_depth_bits output_depth_bits
      inout_type param w0).world.allocated = w0.allocated ++
        ((if is_cuda_input inout_type then []
          else [(cu.d_src_left,
              size_t (int_mul (int_mul (input_depth_bits.tdiv 8) width) height)),
            (cu.d_src_right,
              size_t (int_mul (int_mul (input_depth_bits.tdiv 8) width) height))]) ++
          [(cu.d_left_disp, size_t (2 * width * height)),
            (cu.d_right_disp, size_t (2 * width * height)),
            (cu.d_tmp_left_disp, size_t (2 * width * height)),
            (cu.d_tmp_right_disp, size_t (2 * width * height))]) ∧
    ((if is_cuda_input inout_type then [] else [cu.d_src_left, cu.d_src_right]) ++
      [cu.d_left_disp, cu.d_right_disp, cu.d_tmp_left_disp, cu.d_tmp_right_disp]).Nodup := by
  cases hsel : CudaStereoSGMResources.new_sgm_engine disparity_size input_depth_bits with
  | none =>
    simp only [StereoSGM.ctor, resources_ctor_of_none _ _ _ _ _ _ _ hsel] at hc
    split_ifs at hc
  | some v =>
    have hn : ¬ CudaStereoSGMResources.new_sgm_engine disparity_size input_depth_bits = none := by
      simp [hsel]
    rw [new_sgm_engine_eq_none_iff, not_not] at hn
    have h1 : ¬ (input_depth_bits ≠ 8 ∧ input_depth_bits ≠ 16 ∧ output_depth_bits ≠ 8 ∧
        output_depth_bits ≠ 16) := by omega
    have h2 : ¬ (disparity_size ≠ 64 ∧ disparity_size ≠ 128) := by omega
    have hv := sizeof_input_type_of_new_sgm_engine _ _ _ hsel
    cases hi : is_cuda_input inout_type <;>
      simp [StereoSGM.ctor, CudaStereoSGMResources.ctor, CudaStereoSGMResources.alloc_src, hsel,
        h1, h2, hi, cudaMalloc, cudaMemset, NULL] at hc ⊢ <;>
      subst hc <;> simp [hv]

theorem execute_events_within (self : StereoSGM) (cu : CudaStereoSGMResources)
    (left_pixels right_pixels dst : Ptr) (table : List (Ptr × Nat)) (W H : Nat)
    (hW : self.width_ = W) (hH : self.height_ = H) (hW0 : 0 < W) (hH0 : 0 < H)
    (hP : W * H < 2 ^ 31) (hS : cu.sgm_engine.sizeof_input_type * (W * H) < 2 ^ 31)
    (hv : (self.input_depth_bits_ = 8 ∧ cu.sgm_engine.sizeof_input_type = 1) ∨
      (self.input_depth_bits_ = 16 ∧ cu.sgm_engine.sizeof_input_type = 2))
    (hdisp : ∀ p ∈ [cu.d_left_disp, cu.d_right_disp, cu.d_tmp_left_disp, cu.d_tmp_right_disp],
      ∀ n, n ≤ 2 * (W * H) → within table (p, n))
    (hcaller : ∀ p ∈ [left_pixels, right_pixels, dst], ∀ n, within table (p, n))
    (hstage : is_cuda_input self.inout_type_ = false →
      ∀ p ∈ [cu.d_src_left, cu.d_src_right],
        ∀ n, n ≤ cu.sgm_engine.sizeof_input_type * (W * H) → within table (p, n)) :
    ∀ e ∈ self.execute_events cu left_pixels right_pixels dst, ∀ a ∈ e.accesses,
      within table a := by
  have hWle : W ≤ W * H := Nat.le_mul_of_pos_right W hH0
  have hHle : H ≤ W * H := Nat.le_mul_of_pos_left H hW0
  have e2 : size_t (2 * (W : Int) * (H : Int)) = 2 * (W * H) := by
    have : (2 * (W : Int) * (H : Int)) = ((2 * (W * H) : Nat) : Int) := by push_cast; ring
    rw [this, size_t_natCast _ (by omega)]
  have e1 : size_t (1 * (W : Int) * (H : Int)) = 1 * (W * H) := by
    have : (1 * (W : Int) * (H : Int)) = ((W * H : Nat) : Int) := by push_cast; ring
    rw [this, size_t_natCast _ (by omega), one_mul]
  have eW : size_t (W : Int) = W := size_t_natCast _ (by omega)
  have eH : size_t (H : Int) = H := size_t_natCast _ (by omega)
  have t1 : (1 * (W : Int) * (H : Int)).toNat = 1 * (W * H) := by
    have : (1 * (W : Int) * (H : Int)) = ((W * H : Nat) : Int) := by push_cast; ring
    rw [this, Int.toNat_natCast, one_mul]
  have t2 : (2 * ((W : Int) * (H : Int))).toNat = 2 * (W * H) := by
    have : (2 * ((W : Int) * (H : Int))) = ((2 * (W * H) : Nat) : Int) := by push_cast; ring
    rw [this, Int.toNat_natCast]
  have t3 : (1 * ((W : Int) * (H : Int))).toNat = 1 * (W * H) := by
    have : (1 * ((W : Int) * (H : Int))) = ((W * H : Nat) : Int) := by push_cast; ring
    rw [this, Int.toNat_natCast, one_mul]
  have t4 : (2 * (W : Int) * (H : Int)).toNat = 2 * (W * H) := by
    have : (2 * (W : Int) * (H : Int)) = ((2 * (W * H) : Nat) : Int) := by push_cast; ring
    rw [this, Int.toNat_natCast]
  have le1 : 1 * (W * H) ≤ 2 * (W * H) := by omega
  have le2 : 2 * (W * H) ≤ 2 * (W * H) := le_rfl
  have hm : int_mul (W : Int) (H : Int) = (W : Int) * (H : Int) := by
    rw [int_mul_natCast W H hP, Nat.cast_mul]
  have hsz := staging_size self.input_depth_bits_ cu.sgm_engine.sizeof_input_type W H hH0
    hv hS
  have cL := hdisp cu.d_left_disp (by simp)
  have cR := hdisp cu.d_right_disp (by simp)
  have ctL := hdisp cu.d_tmp_left_disp (by simp)
  have ctR := hdisp cu.d_tmp_right_disp (by simp)
  have cl := hcaller left_pixels (by simp)
  have cr := hcaller right_pixels (by simp)
  have cd := hcaller dst (by simp)
  have hiL : within table (if is_cuda_input self.inout_type_ then left_pixels else cu.d_src_left,
      cu.sgm_engine.sizeof_input_type * (W * H)) := by
    cases hi : is_cuda_input self.inout_type_
    · exact hstage hi _ (by simp) _ le_rfl
    · exact cl _
  have hiR : within table (if is_cuda_input self.inout_type_ then right_pixels else cu.d_src_right,
      cu.sgm_engine.sizeof_input_type * (W * H)) := by
    cases hi : is_cuda_input self.inout_type_
    · exact hstage hi _ (by simp) _ le_rfl
    · exact cr _
  have hT : ∀ n, n ≤ 2 * (W * H) → within table (self.left_disp_target cu dst, n) := by
    intro n hn
    unfold StereoSGM.left_disp_target
    split_ifs
    · exact cd _
    · exact cL _ hn
  intro e he
  simp only [StereoSGM.execute_events, List.mem_append] at he
  rcases he with (he | he) | he
  · unfold StereoSGM.stage_events at he
    split_ifs at he with hi
    · simp at he
    · simp only [Bool.not_eq_true] at hi
      have sL := hstage hi cu.d_src_left (by simp)
      have sR := hstage hi cu.d_src_right (by simp)
      simp only [List.mem_cons, List.mem_singleton, List.not_mem_nil, or_false, hW, hH,
        hsz.1] at he
      rcases he with rfl | rfl <;> intro a ha <;>
        simp only [Event.accesses, List.mem_cons, List.mem_singleton, List.not_mem_nil,
          or_false] at ha <;>
        rcases ha with rfl | rfl <;>
        first
          | exact sL _ le_rfl
          | exact sR _ le_rfl
          | exact cl _
          | exact cr _
  · simp only [StereoSGM.pipeline_events, List.mem_cons, List.mem_singleton, List.not_mem_nil,
      or_false, hW, hH, eW, eH] at he
    rcases he with rfl | rfl | rfl | rfl <;> intro a ha <;>
      simp only [Event.accesses, List.mem_cons, List.mem_singleton, List.not_mem_nil,
        or_false, t1, hsz.2, Nat.mul_assoc] at ha
    · rcases ha with rfl | rfl | rfl | rfl
      · exact ctL _ le1
      · exact ctR _ le1
      · exact hiL
      · exact hiR
    · rcases ha with rfl | rfl
      · exact ctL _ le1
      · exact hT _ le1
    · rcases ha with rfl | rfl
      · exact ctR _ le1
      · exact cR _ le1
    · rcases ha with rfl | rfl | rfl
      · exact hT _ le1
      · exact cR _ le1
      · exact hiL
  · unfold StereoSGM.finalize_events at he
    split_ifs at he <;>
      simp only [List.mem_cons, List.mem_singleton, List.not_mem_nil, or_false, hW, hH,
        e1, e2, hm] at he
    · rcases he with rfl | rfl <;> intro a ha <;>
        simp only [Event.accesses, List.mem_cons, List.mem_singleton, List.not_mem_nil,
          or_false, t2, t3] at ha <;>
        rcases ha with rfl | rfl
      · exact hT _ le1
      · exact ctL _ le2
      · exact cd _
      · exact ctL _ le2
    · subst he
      intro a ha
      simp only [Event.accesses, List.mem_cons, List.mem_singleton, List.not_mem_nil,
        or_false, t2, t3] at ha
      rcases ha with rfl | rfl
      · exact hT _ le1
      · exact cd _
    · subst he
      intro a ha
      simp only [Event.accesses, List.mem_cons, List.mem_singleton, List.not_mem_nil,
        or_false] at ha
      rcases ha with rfl | rfl
      · exact cd _
      · exact hT _ le1
    · subst he
      intro a ha
      simp [Event.accesses] at ha

/-! ## The claims -/

/-- C1: the claim asks that an output depth outside 8 and 16 be rejected. The code accepts the
request (width 640, height 480, disparity 64, input depth 8, output depth 7, host input and
output): the constructor throws nothing and returns an instance that holds resources and whose
output depth is 7. -/
theorem C1_invalid_output_depth_is_accepted :
    (StereoSGM.ctor 640 480 64 8 7 0 Parameters.sample World.sample).thrown = none ∧
    (StereoSGM.ctor 640 480 64 8 7 0 Parameters.sample World.sample).self.cu_res_.isSome = true ∧
    (StereoSGM.ctor 640 480 64 8 7 0 Parameters.sample World.sample).self.output_depth_bits_ =
      7 := by
  decide

/-- C2: the claim asks that the numeric members be zero whenever construction fails. The request
(width 640, height 480, disparity 64, input depth 7, output depth 8) fails with the error thrown
inside `CudaStereoSGMResources`, and at that moment the numeric members still hold the requested
values. -/
theorem C2_fields_not_reset_on_resource_error :
    (StereoSGM.ctor 640 480 64 7 8 0 Parameters.sample World.sample).thrown =
      some "depth bits must be 8 or 16, and disparity size must be 64 or 128" ∧
    (StereoSGM.ctor 640 480 64 7 8 0 Parameters.sample World.sample).self.width_ = 640 ∧
    (StereoSGM.ctor 640 480 64 7 8 0 Parameters.sample World.sample).self.height_ = 480 ∧
    (StereoSGM.ctor 640 480 64 7 8 0 Parameters.sample World.sample).self.input_depth_bits_ = 7 ∧
    (StereoSGM.ctor 640 480 64 7 8 0 Parameters.sample World.sample).self.output_depth_bits_ = 8 ∧
    (StereoSGM.ctor 640 480 64 7 8 0 Parameters.sample World.sample).self.disparity_size_ =
      64 := by
  refine ⟨rfl, ?_⟩
  decide

/-- C3: the claim asks that the unsupported-case branch never be reached on a constructed
instance. On the instance constructed from (width 4, height 2, disparity 64, input depth 8, output
depth 7, host input and output), `execute` ends in that branch: the last operation is the
`not impl` message and `dst` (buffer 102) is left as it was. -/
theorem C3_not_impl_branch_is_reached :
    (StereoSGM.ctor 4 2 64 8 7 0 Parameters.sample World.sample).thrown = none ∧
    ((StereoSGM.ctor 4 2 64 8 7 0 Parameters.sample World.sample).self.execute Kernels.sample
        100 101 102 (StereoSGM.ctor 4 2 64 8 7 0 Parameters.sample World.sample).world).map
      (fun r => (r.2.log.getLast?, r.2.mem 102)) =
      some (some (Event.cerr "not impl"), World.sample.mem 102) := by
  decide

/-- C5: on an instance that holds its resources, `execute` returns. When the output is
device-resident at depth 8 the left median filter writes to `dst`, and the trace ends with the
consistency check: the finalize step performs no operation. In every other case the left median
filter writes to the owned `d_left_disp`. -/
theorem C5_zero_copy (K : Kernels) (self : StereoSGM) (cu : CudaStereoSGMResources)
    (left_pixels right_pixels dst : Ptr) (w : World) (hcu : self.cu_res_ = some cu) :
    ∃ w', self.execute K left_pixels right_pixels dst w = some (self, w') ∧
      (is_cuda_output self.inout_type_ = true ∧ self.output_depth_bits_ = 8 →
        w'.log = (self.stage_input cu left_pixels right_pixels w).2.2.log ++
          [Event.sgm_engine_execute cu.sgm_engine cu.d_tmp_left_disp cu.d_tmp_right_disp
              (self.stage_input cu left_pixels right_pixels w).1
              (self.stage_input cu left_pixels right_pixels w).2.1
              (size_t self.width_) (size_t self.height_)
              self.param_.P1 self.param_.P2 self.param_.uniqueness,
            Event.median_filter cu.d_tmp_left_disp dst self.width_ self.height_,
            Event.median_filter cu.d_tmp_right_disp cu.d_right_disp self.width_ self.height_,
            Event.check_consistency dst cu.d_right_disp
              (self.stage_input cu left_pixels right_pixels w).1
              self.width_ self.height_ self.input_depth_bits_]) ∧
      (¬ (is_cuda_output self.inout_type_ = true ∧ self.output_depth_bits_ = 8) →
        ∃ finalize_events, w'.log = (self.stage_input cu left_pixels right_pixels w).2.2.log ++
          [Event.sgm_engine_execute cu.sgm_engine cu.d_tmp_left_disp cu.d_tmp_right_disp
              (self.stage_input cu left_pixels right_pixels w).1
              (self.stage_input cu left_pixels right_pixels w).2.1
              (size_t self.width_) (size_t self.height_)
              self.param_.P1 self.param_.P2 self.param_.uniqueness,
            Event.median_filter cu.d_tmp_left_disp cu.d_left_disp self.width_ self.height_,
            Event.median_filter cu.d_tmp_right_disp cu.d_right_disp self.width_ self.height_,
            Event.check_consistency cu.d_left_disp cu.d_right_disp
              (self.stage_input cu left_pixels right_pixels w).1
              self.width_ self.height_ self.input_depth_bits_] ++ finalize_events) := by
  refine ⟨_, execute_eq K self cu left_pixels right_pixels dst w hcu, ?_, ?_⟩
  · rintro ⟨ho, h⟩
    simp [execute_world_eq, StereoSGM.finalize, StereoSGM.left_disp_target, ho, h,
      pipeline_world_log, StereoSGM.pipeline_events]
  · intro hn
    rw [execute_world_eq]
    have ht : self.left_disp_target cu dst = cu.d_left_disp := by
      simp only [StereoSGM.left_disp_target, if_neg hn]
    rw [ht]
    unfold StereoSGM.finalize
    split_ifs <;>
      simp [cudaMemcpy, details.cast_8bit_16bit_array, cerr, pipeline_world_log,
        StereoSGM.pipeline_events]

/-- Witness for C5: device output at depth 8 on the sample instance; the left median filter
writes to `dst` (buffer 102) and nothing follows the consistency check. -/
theorem C5_zero_copy_witness :
    (StereoSGM.sample 8 3).self.cu_res_ = some CudaStereoSGMResources.sample_device ∧
    ∃ w', (StereoSGM.sample 8 3).self.execute Kernels.sample 100 101 102
        (StereoSGM.sample 8 3).world = some ((StereoSGM.sample 8 3).self, w') ∧
      w'.log = (StereoSGM.sample 8 3).world.log ++
        [Event.sgm_engine_execute SemiGlobalMatchingImpl.uint8_t_64 105 106 100 101 4 2 10 120
            0x3f733333,
          Event.median_filter 105 102 4 2,
          Event.median_filter 106 104 4 2,
          Event.check_consistency 102 104 100 4 2 8] :=
  ⟨by decide,
    let ⟨w', he, h, _⟩ := C5_zero_copy Kernels.sample (StereoSGM.sample 8 3).self
      CudaStereoSGMResources.sample_device 100 101 102 (StereoSGM.sample 8 3).world (by decide)
    ⟨w', he, (h ⟨by decide, by decide⟩).trans (by decide)⟩⟩

/-- C7: the engine that `CudaStereoSGMResources` instantiates is the one the variant table gives
for the pair (input depth, disparity range). For a pair in the table the constructor returns
holding that variant, and its trace is one instantiation followed by operations that instantiate
nothing. For any other pair it throws the configuration error, with no instantiation and no other
effect. The outcome is the same for every output depth, width, height, locality flag and machine,
and `execute` leaves the instance, and so its engine, as it was. -/
theorem C7_engine_selection
    (width height disparity_size input_depth_bits output_depth_bits inout_type : Int)
    (w : World) :
    (∀ v, engine_variant input_depth_bits disparity_size = some v →
      ∃ cu tail,
        (CudaStereoSGMResources.ctor width height disparity_size input_depth_bits
          output_depth_bits inout_type w).1 = Except.ok cu ∧
        cu.sgm_engine = v ∧
        (CudaStereoSGMResources.ctor width height disparity_size input_depth_bits
          output_depth_bits inout_type w).2.log =
            w.log ++ Event.new_SemiGlobalMatchingImpl v :: tail ∧
        ∀ e ∈ tail, ∀ v', e ≠ Event.new_SemiGlobalMatchingImpl v') ∧
    (engine_variant input_depth_bits disparity_size = none →
      CudaStereoSGMResources.ctor width height disparity_size input_depth_bits
          output_depth_bits inout_type w =
        (Except.error "depth bits must be 8 or 16, and disparity size must be 64 or 128", w)) ∧
    (∀ (width' height' output_depth_bits' inout_type' : Int) (w' : World),
      (CudaStereoSGMResources.ctor width' height' disparity_size input_depth_bits
          output_depth_bits' inout_type' w').1.map (fun cu => cu.sgm_engine) =
        (CudaStereoSGMResources.ctor width height disparity_size input_depth_bits
          output_depth_bits inout_type w).1.map (fun cu => cu.sgm_engine)) ∧
    (∀ (K : Kernels) (self : StereoSGM) (cu : CudaStereoSGMResources)
        (left_pixels right_pixels dst : Ptr) (s : World),
      self.cu_res_ = some cu →
        (self.execute K left_pixels right_pixels dst s).map (fun r => r.1) = some self ∧
        (self.execute K left_pixels right_pixels dst s).map
            (fun r => r.1.cu_res_.map fun c => c.sgm_engine) = some (some cu.sgm_engine)) := by
  refine ⟨?_, ?_, ?_, ?_⟩
  · intro v hv
    rw [← new_sgm_engine_eq_engine_variant] at hv
    cases hi : is_cuda_input inout_type <;>
      simp [CudaStereoSGMResources.ctor, CudaStereoSGMResources.alloc_src, hv, hi, cudaMalloc,
        cudaMemset]
  · intro hv
    rw [← new_sgm_engine_eq_engine_variant] at hv
    exact resources_ctor_of_none _ _ _ _ _ _ _ hv
  · intro width' height' output_depth_bits' inout_type' w'
    cases hv : CudaStereoSGMResources.new_sgm_engine disparity_size input_depth_bits <;>
      simp [CudaStereoSGMResources.ctor, hv, Except.map]
  · intro K self cu left_pixels right_pixels dst s hcu
    simp [execute_eq K self cu left_pixels right_pixels dst s hcu, hcu]

/-- Witness for C7: the pair (8, 64) on the sample machine. -/
theorem C7_engine_selection_witness :
    engine_variant 8 64 = some SemiGlobalMatchingImpl.uint8_t_64 ∧
    ∃ cu tail,
      (CudaStereoSGMResources.ctor 4 2 64 8 16 0 World.sample).1 = Except.ok cu ∧
      cu.sgm_engine = SemiGlobalMatchingImpl.uint8_t_64 ∧
      (CudaStereoSGMResources.ctor 4 2 64 8 16 0 World.sample).2.log =
        World.sample.log ++
          Event.new_SemiGlobalMatchingImpl SemiGlobalMatchingImpl.uint8_t_64 :: tail ∧
      ∀ e ∈ tail, ∀ v', e ≠ Event.new_SemiGlobalMatchingImpl v' :=
  ⟨by decide, (C7_engine_selection 4 2 64 8 16 0 World.sample).1 _ (by decide)⟩

/-- C8: whenever the `StereoSGM` constructor ends in a configuration error the machine is left
exactly as it was: no device buffer was allocated, no operation was traced (so no engine was
instantiated) and the instance holds no resources. The same holds for the error thrown by the
constructor of `CudaStereoSGMResources`. -/
theorem C8_configuration_error_before_allocation
    (width height disparity_size input_depth_bits output_depth_bits inout_type : Int)
    (param : Parameters) (w : World) :
    ((StereoSGM.ctor width height disparity_size input_depth_bits output_depth_bits inout_type
        param w).thrown ≠ none →
      (StereoSGM.ctor width height disparity_size input_depth_bits output_depth_bits inout_type
        param w).world = w ∧
      (StereoSGM.ctor width height disparity_size input_depth_bits output_depth_bits inout_type
        param w).world.allocated = w.allocated ∧
      (StereoSGM.ctor width height disparity_size input_depth_bits output_depth_bits inout_type
        param w).world.log = w.log ∧
      (StereoSGM.ctor width height disparity_size input_depth_bits output_depth_bits inout_type
        param w).self.cu_res_ = none) ∧
    (∀ what, (CudaStereoSGMResources.ctor width height disparity_size input_depth_bits
        output_depth_bits inout_type w).1 = Except.error what →
      (CudaStereoSGMResources.ctor width height disparity_size input_depth_bits
        output_depth_bits inout_type w).2 = w) := by
  cases hsel : CudaStereoSGMResources.new_sgm_engine disparity_size input_depth_bits with
  | none =>
    refine ⟨fun _ => ?_, fun _ _ => ?_⟩
    · simp only [StereoSGM.ctor, resources_ctor_of_none _ _ _ _ _ _ _ hsel]
      split_ifs <;> exact ⟨rfl, rfl, rfl, rfl⟩
    · rw [resources_ctor_of_none _ _ _ _ _ _ _ hsel]
  | some v =>
    obtain ⟨cu, w', hc, -⟩ := resources_ctor_of_some width height disparity_size
      input_depth_bits output_depth_bits inout_type w v hsel
    refine ⟨fun h => ?_, fun what hw => ?_⟩
    · simp only [StereoSGM.ctor, hc] at h ⊢
      split_ifs at h ⊢
      · exact ⟨rfl, rfl, rfl, rfl⟩
      · exact ⟨rfl, rfl, rfl, rfl⟩
      · simp at h
    · rw [hc] at hw
      simp at hw

/-- Witness for C8: both depths 7; the constructor throws and the sample machine is untouched. -/
theorem C8_configuration_error_before_allocation_witness :
    (StereoSGM.ctor 4 2 64 7 7 0 Parameters.sample World.sample).thrown ≠ none ∧
    (StereoSGM.ctor 4 2 64 7 7 0 Parameters.sample World.sample).world = World.sample ∧
    (StereoSGM.ctor 4 2 64 7 7 0 Parameters.sample World.sample).world.allocated =
      World.sample.allocated ∧
    (StereoSGM.ctor 4 2 64 7 7 0 Parameters.sample World.sample).world.log = World.sample.log ∧
    (StereoSGM.ctor 4 2 64 7 7 0 Parameters.sample World.sample).self.cu_res_ = none :=
  ⟨by decide,
    (C8_configuration_error_before_allocation 4 2 64 7 7 0 Parameters.sample World.sample).1
      (by decide)⟩

/-- C10: on a successfully constructed instance with positive width and height whose byte counts
do not overflow, called with buffers that are none of its own, every operation of `execute` that
touches a scratch buffer touches no more bytes than the constructor allocated for it. With
host-resident input the call starts with the two staging copies, each of exactly the allocated
size of its staging buffer, and makes no other host-to-device copy. With device-resident input
it makes no host-to-device copy and its result does not depend on the staging handles. -/
theorem C10_scratch_accesses_in_bounds (K : Kernels)
    (width height disparity_size input_depth_bits output_depth_bits inout_type : Int)
    (param : Parameters) (w0 : World) (cu : CudaStereoSGMResources)
    (left_pixels right_pixels dst : Ptr) (w : World)
    (hw : 0 < width) (hh : 0 < height) (hwh : width * height < 2 ^ 31)
    (hsrc : input_depth_bits.tdiv 8 * width * height < 2 ^ 31)
    (hc : (StereoSGM.ctor width height disparity_size input_depth_bits output_depth_bits
      inout_type param w0).self.cu_res_ = some cu)
    (hl : left_pixels ∉ (StereoSGM.ctor width height disparity_size input_depth_bits
      output_depth_bits inout_type param w0).self.scratch_set cu)
    (hr : right_pixels ∉ (StereoSGM.ctor width height disparity_size input_depth_bits
      output_depth_bits inout_type param w0).self.scratch_set cu)
    (hd : dst ∉ (StereoSGM.ctor width height disparity_size input_depth_bits
      output_depth_bits inout_type param w0).self.scratch_set cu) :
    ∃ (new : List (Ptr × Nat)) (w' : World),
      (StereoSGM.ctor width height disparity_size input_depth_bits output_depth_bits
        inout_type param w0).world.allocated = w0.allocated ++ new ∧
      new.map Prod.fst = (StereoSGM.ctor width height disparity_size input_depth_bits
        output_depth_bits inout_type param w0).self.scratch_set cu ∧
      (StereoSGM.ctor width height disparity_size input_depth_bits output_depth_bits
        inout_type param w0).self.execute K left_pixels right_pixels dst w =
        some ((StereoSGM.ctor width height disparity_size input_depth_bits output_depth_bits
          inout_type param w0).self, w') ∧
      (∀ e ∈ w'.log.drop w.log.length, ∀ a ∈ e.accesses, within new a) ∧
      (is_cuda_input inout_type = false →
        ∃ rest, w'.log.drop w.log.length =
          Event.cudaMemcpy cu.d_src_left left_pixels
              (size_t (input_depth_bits.tdiv 8 * width * height))
              cudaMemcpyKind.cudaMemcpyHostToDevice ::
            Event.cudaMemcpy cu.d_src_right right_pixels
              (size_t (input_depth_bits.tdiv 8 * width * height))
              cudaMemcpyKind.cudaMemcpyHostToDevice :: rest ∧
          (cu.d_src_left, size_t (input_depth_bits.tdiv 8 * width * height)) ∈ new ∧
          (cu.d_src_right, size_t (input_depth_bits.tdiv 8 * width * height)) ∈ new ∧
          ∀ e ∈ rest, ∀ p q n, e ≠ Event.cudaMemcpy p q n cudaMemcpyKind.cudaMemcpyHostToDevice) ∧
      (is_cuda_input inout_type = true →
        (∀ e ∈ w'.log.drop w.log.length, ∀ p q n,
          e ≠ Event.cudaMemcpy p q n cudaMemcpyKind.cudaMemcpyHostToDevice) ∧
        ∀ a b : Ptr,
          (StereoSGM.execute K
            { (StereoSGM.ctor width height disparity_size input_depth_bits output_depth_bits
                inout_type param w0).self with
              cu_res_ := some { cu with d_src_left := a, d_src_right := b } }
            left_pixels right_pixels dst w).map (fun r => r.2) = some w') := by
  obtain ⟨hself, hv, halloc, hnd⟩ := ctor_of_cu_res width height disparity_size input_depth_bits
    output_depth_bits inout_type param w0 cu hc
  rw [hself] at hl hr hd ⊢
  obtain ⟨W, rfl⟩ := Int.eq_ofNat_of_zero_le hw.le
  obtain ⟨H, rfl⟩ := Int.eq_ofNat_of_zero_le hh.le
  have hW : 0 < W := by exact_mod_cast hw
  have hH : 0 < H := by exact_mod_cast hh
  have hP : W * H < 2 ^ 31 := by exact_mod_cast hwh
  have e2 : size_t (2 * (W : Int) * (H : Int)) = 2 * (W * H) := by
    have : (2 * (W : Int) * (H : Int)) = ((2 * (W * H) : Nat) : Int) := by push_cast; ring
    rw [this, size_t_natCast _ (by omega)]
  have e1 : size_t (1 * (W : Int) * (H : Int)) = 1 * (W * H) := by
    have : (1 * (W : Int) * (H : Int)) = ((W * H : Nat) : Int) := by push_cast; ring
    rw [this, size_t_natCast _ (by omega), one_mul]
  have hsz : size_t (input_depth_bits.tdiv 8 * (W : Int) * (H : Int)) =
      cu.sgm_engine.sizeof_input_type * (W * H) := by
    rcases hv with ⟨h, hs⟩ | ⟨h, hs⟩
    · rw [h, hs, show Int.tdiv 8 8 = 1 by decide, e1]
    · rw [h, hs, show Int.tdiv 16 8 = 2 by decide, e2]
  have hS : cu.sgm_engine.sizeof_input_type * (W * H) < 2 ^ 31 := by
    rcases hv with ⟨h, hs⟩ | ⟨h, hs⟩
    · rw [hs]
      omega
    · have h2 : (2 : Int) * (W : Int) * (H : Int) < 2 ^ 31 := by
        rw [h, show Int.tdiv 16 8 = 2 by decide] at hsrc
        exact hsrc
      have h3 : 2 * W * H < 2 ^ 31 := by exact_mod_cast h2
      rw [hs, ← Nat.mul_assoc]
      exact h3
  have hwrap : size_t (int_mul (int_mul (input_depth_bits.tdiv 8) (W : Int)) (H : Int)) =
      size_t (input_depth_bits.tdiv 8 * (W : Int) * (H : Int)) := by
    rw [(staging_size input_depth_bits cu.sgm_engine.sizeof_input_type W H hH hv hS).1, hsz]
  rw [hwrap] at halloc
  refine ⟨_, _, halloc, ?_, execute_eq K _ cu left_pixels right_pixels dst w rfl, ?_, ?_, ?_⟩
  · cases hi : is_cuda_input inout_type <;> simp [StereoSGM.scratch_set, hi]
  · rw [execute_world_log_drop]
    refine execute_events_within _ cu left_pixels right_pixels dst _ W H rfl rfl hW hH hP hS
      hv ?_ ?_ ?_
    · intro p hp n hn b hb hab
      rcases List.mem_append.1 hb with hb | hb
      · exfalso
        have hdj := List.disjoint_of_nodup_append hnd
        refine hdj (a := p) ?_ hp
        cases hi : is_cuda_input inout_type <;> simp [hi] at hb ⊢
        rcases hb with rfl | rfl
        · exact Or.inl hab
        · exact Or.inr hab
      · simp only [e2, List.mem_cons, List.mem_singleton, List.not_mem_nil, or_false] at hb
        rcases hb with rfl | rfl | rfl | rfl <;> exact hn
    · intro p hp n b hb hab
      exfalso
      have hmem : b.1 ∈ StereoSGM.scratch_set
          { cu_res_ := some cu, width_ := (W : Int), height_ := (H : Int),
            disparity_size_ := disparity_size, input_depth_bits_ := input_depth_bits,
            output_depth_bits_ := output_depth_bits, inout_type_ := inout_type,
            param_ := param } cu := by
        cases hi : is_cuda_input inout_type <;> simp [hi] at hb <;>
          simp [StereoSGM.scratch_set, hi] <;>
          rcases hb with rfl | rfl | rfl | rfl | rfl | rfl <;> simp
      simp only [List.mem_cons, List.mem_singleton, List.not_mem_nil, or_false] at hp
      rcases hp with rfl | rfl | rfl
      · exact hl (by rw [show p = b.1 from hab]; exact hmem)
      · exact hr (by rw [show p = b.1 from hab]; exact hmem)
      · exact hd (by rw [show p = b.1 from hab]; exact hmem)
    · intro hi p hp n hn b hb hab
      simp only [hi, if_false, Bool.false_eq_true] at hb hnd
      rcases List.mem_append.1 hb with hb | hb
      · simp only [hsz, List.mem_cons, List.mem_singleton, List.not_mem_nil, or_false] at hb
        rcases hb with rfl | rfl <;> exact hn
      · exfalso
        have hdj := List.disjoint_of_nodup_append hnd
        refine hdj (a := p) hp ?_
        simp only [List.mem_cons, List.mem_singleton, List.not_mem_nil, or_false] at hb ⊢
        rcases hb with rfl | rfl | rfl | rfl
        · exact Or.inl hab
        · exact Or.inr (Or.inl hab)
        · exact Or.inr (Or.inr (Or.inl hab))
        · exact Or.inr (Or.inr (Or.inr hab))
  · intro hi
    rw [execute_world_log_drop]
    refine ⟨_, by simp [StereoSGM.execute_events, StereoSGM.stage_events, hi, hwrap]; rfl,
      by simp [hi], by simp [hi], ?_⟩
    intro e he p q n heq
    subst heq
    simp only [StereoSGM.pipeline_events, StereoSGM.finalize_events] at he
    split_ifs at he <;> simp at he
  · intro hi
    rw [execute_world_log_drop]
    refine ⟨?_, ?_⟩
    · intro e he p q n heq
      subst heq
      simp only [StereoSGM.execute_events, StereoSGM.stage_events, StereoSGM.pipeline_events,
        StereoSGM.finalize_events, hi, if_true, List.nil_append] at he
      split_ifs at he <;> simp at he
    · intro a b
      simp [StereoSGM.execute, StereoSGM.execute_world, StereoSGM.stage_input, hi,
        StereoSGM.left_disp_target, StereoSGM.finalize]

/-- Witness for C10: the sample instance with host input and output at depth 16, called with
the caller's buffers 100, 101 and 102. -/
theorem C10_scratch_accesses_in_bounds_witness :
    (0 : Int) < 4 ∧ (0 : Int) < 2 ∧ (4 : Int) * 2 < 2 ^ 31 ∧
    Int.tdiv 8 8 * (4 : Int) * 2 < 2 ^ 31 ∧
    (StereoSGM.sample 16 0).self.cu_res_ = some CudaStereoSGMResources.sample_host ∧
    100 ∉ (StereoSGM.sample 16 0).self.scratch_set CudaStereoSGMResources.sample_host ∧
    101 ∉ (StereoSGM.sample 16 0).self.scratch_set CudaStereoSGMResources.sample_host ∧
    102 ∉ (StereoSGM.sample 16 0).self.scratch_set CudaStereoSGMResources.sample_host ∧
    ∃ (new : List (Ptr × Nat)) (w' : World),
      (StereoSGM.sample 16 0).world.allocated = World.sample.allocated ++ new ∧
      (StereoSGM.sample 16 0).self.execute Kernels.sample 100 101 102
        (StereoSGM.sample 16 0).world = some ((StereoSGM.sample 16 0).self, w') ∧
      ∀ e ∈ w'.log.drop (StereoSGM.sample 16 0).world.log.length, ∀ a ∈ e.accesses,
        within new a :=
  ⟨by decide, by decide, by decide, by decide, by decide, by decide, by decide, by decide,
    let ⟨new, w', h1, _, h3, h4, _⟩ := C10_scratch_accesses_in_bounds Kernels.sample 4 2 64 8 16 0
      Parameters.sample World.sample CudaStereoSGMResources.sample_host 100 101 102
      (StereoSGM.sample 16 0).world (by decide) (by decide) (by decide) (by decide) (by decide)
      (by decide) (by decide) (by decide)
    ⟨new, w', h1, h3, h4⟩⟩

end sgm
